import Mathlib

/-!
Verification of the jubble simulation core (`jubbles.py`).

Shallow embedding conventions:
* Python floats are modelled as real numbers (`ℝ`); trigonometry uses
  `Real.cos`, `Real.sin`, `Real.arctan`.
* The integer `age` counters are modelled as `ℕ`; the float constants they
  are compared against (`DEATH_AGE = 3000.0`, `MATURE_AGE = 600.0`,
  `TIME_TAKEN_TO_DECOMPOSE = 300.0`) are integral, so the comparisons are
  modelled on `ℕ`/`ℤ` with the same truth value.
* Python objects live on a heap; lists hold references.  The population
  lists of `update_jubbles` are modelled as lists of references (`ℕ`)
  into a `Store : ℕ → Jubble`.  `copy.copy` on a list copies the list
  container only (a shallow copy), which in this model is the identity on
  the reference list: the `Jubble` objects themselves are shared.
* `random.*` outcomes (the turn coin-flip and the angle perturbation of
  `update`) are passed in as explicit oracle arguments.
* Fallible attribute reads (`age_of_death` while it is `None`) are
  modelled with `Option`.
-/

namespace Jubblution

/- ── Constants (from the top of jubbles.py) ───────────────────────────── -/

def SCREEN_SIZE : ℝ × ℝ := (640, 480)

def EDGE_AVOIDANCE : ℝ := 30

def HORIZONTAL_RANGE : ℝ × ℝ := (EDGE_AVOIDANCE, SCREEN_SIZE.1 - EDGE_AVOIDANCE)

def VERTICAL_RANGE : ℝ × ℝ := (EDGE_AVOIDANCE, SCREEN_SIZE.2 - EDGE_AVOIDANCE)

def DEF_ANGLE : ℝ := 0

def DEF_SPEED : ℝ := 1

def DEF_DETECTION_RADIUS : ℝ := 150

noncomputable def DEF_DETECTION_SLICE : ℝ := Real.pi / 2

/-- `MATURE_AGE = 600.0` — ages are integers, so the cap is modelled on `ℕ`. -/
def MATURE_AGE : ℕ := 600

/-- `DEATH_AGE = 3000.0` — compared against the integer `age`. -/
def DEATH_AGE : ℕ := 3000

/-- `TIME_TAKEN_TO_DECOMPOSE = 300.0` — compared against an integer difference. -/
def TIME_TAKEN_TO_DECOMPOSE : ℤ := 300

def BIRTH_SIZE : ℝ := 5

def MATURE_SIZE : ℝ := 15

noncomputable def TURN_ANGLE : ℝ := Real.pi / 7

def ANGLE_RIGHT : ℝ := 0

noncomputable def ANGLE_UP : ℝ := Real.pi * 1.5

noncomputable def ANGLE_LEFT : ℝ := Real.pi

noncomputable def ANGLE_DOWN : ℝ := Real.pi / 2

/- ── Geometry utilities ───────────────────────────────────────────────── -/

/-- `dist(a, b) = math.hypot(a[0]-b[0], a[1]-b[1])`. -/
noncomputable def dist (a b : ℝ × ℝ) : ℝ :=
  Real.sqrt ((a.1 - b.1) ^ 2 + (a.2 - b.2) ^ 2)

/-- `math.atan2 y x` (the angle part; range `(-π, π]`, with the IEEE special
cases for the axes: `atan2(0, 0) = 0`, `atan2(0, x<0) = π`). -/
noncomputable def atan2 (y x : ℝ) : ℝ :=
  if 0 < x then Real.arctan (y / x)
  else if x < 0 then
    (if 0 ≤ y then Real.arctan (y / x) + Real.pi
     else Real.arctan (y / x) - Real.pi)
  else
    (if 0 < y then Real.pi / 2 else if y < 0 then -(Real.pi / 2) else 0)

/-- `to_polar(x, y) = (math.atan2(y, x), math.hypot(x, y))`. -/
noncomputable def to_polar (x y : ℝ) : ℝ × ℝ :=
  (atan2 y x, Real.sqrt (x ^ 2 + y ^ 2))

/-- `to_cartesian(angle, magnitude)`. -/
noncomputable def to_cartesian (angle magnitude : ℝ) : ℝ × ℝ :=
  (magnitude * Real.cos angle, magnitude * Real.sin angle)

/-- `circles_are_touching`: distance between centres at most the radii sum. -/
def circles_are_touching (c1 c2 : ℝ × ℝ) (r1 r2 : ℝ) : Prop :=
  dist c1 c2 ≤ r1 + r2

/- ── The Jubble entity ─────────────────────────────────────────────────── -/

/-- The state of one `Jubble` object.  The pygame screen handle and the
random colour are rendering-only and omitted.  `goal_jubble` is a heap
reference (an index into the `Store`), mirroring the Python object
reference held by the attribute. -/
structure Jubble where
  id : ℕ
  x : ℝ
  y : ℝ
  angle : ℝ
  speed : ℝ
  detection_radius : ℝ
  age : ℕ
  is_alive : Bool
  age_of_death : Option ℕ
  has_coord_goal : Bool
  has_jubble_goal : Bool
  goal_x : Option ℝ
  goal_y : Option ℝ
  goal_jubble : Option ℕ
  deriving Inhabited

/-- `Jubble.__init__`, with the randomly drawn position supplied as
arguments (and the random id): zero age, alive, no goals, defaults. -/
def Jubble.init (i : ℕ) (x0 y0 : ℝ) : Jubble :=
  { id := i, x := x0, y := y0,
    angle := DEF_ANGLE, speed := DEF_SPEED,
    detection_radius := DEF_DETECTION_RADIUS,
    age := 0, is_alive := true, age_of_death := none,
    has_coord_goal := false, has_jubble_goal := false,
    goal_x := none, goal_y := none, goal_jubble := none }

def Jubble.get_pos (j : Jubble) : ℝ × ℝ := (j.x, j.y)

/-- `kill()`: sets `is_alive = False` and `age_of_death = age`,
unconditionally. -/
def Jubble.kill (j : Jubble) : Jubble :=
  { j with is_alive := false, age_of_death := some j.age }

/-- `_get_older()`: increment `age`; on reaching `DEATH_AGE` while alive,
`kill`. -/
def Jubble._get_older (j : Jubble) : Jubble :=
  let j1 : Jubble := { j with age := j.age + 1 }
  if DEATH_AGE ≤ j1.age ∧ j1.is_alive = true then j1.kill else j1

open Classical in
/-- `set_coord_goal(gx, gy)`: accepted only when both coordinates are within
the map ranges (boundaries inclusive); otherwise a no-op. -/
noncomputable def Jubble.set_coord_goal (j : Jubble) (gx gy : ℝ) : Jubble :=
  if (HORIZONTAL_RANGE.1 ≤ gx ∧ gx ≤ HORIZONTAL_RANGE.2) ∧
     (VERTICAL_RANGE.1 ≤ gy ∧ gy ≤ VERTICAL_RANGE.2) then
    { j with has_coord_goal := true, goal_x := some gx, goal_y := some gy }
  else j

/-- `set_jubble_goal(gj)`: unconditionally records the reference. -/
def Jubble.set_jubble_goal (j : Jubble) (gj : ℕ) : Jubble :=
  { j with has_jubble_goal := true, goal_jubble := some gj }

/-- `_coord_in_range(ox, oy)`. -/
def Jubble._coord_in_range (j : Jubble) (ox oy : ℝ) : Prop :=
  dist j.get_pos (ox, oy) ≤ j.detection_radius

/-- `can_chase_jubble(other)`: range only, no cone test. -/
def Jubble.can_chase_jubble (j other : Jubble) : Prop :=
  j._coord_in_range other.x other.y

/-- `_can_detect_coord(ox, oy)`: within range and the `atan2` angle lies in
the raw interval `[angle - DEF_DETECTION_SLICE/2, angle + DEF_DETECTION_SLICE/2]`
(no angle normalisation is performed by the source). -/
noncomputable def Jubble._can_detect_coord (j : Jubble) (ox oy : ℝ) : Prop :=
  j._coord_in_range ox oy ∧
  j.angle - DEF_DETECTION_SLICE / 2 ≤ atan2 (oy - j.y) (ox - j.x) ∧
  atan2 (oy - j.y) (ox - j.x) ≤ j.angle + DEF_DETECTION_SLICE / 2

/-- `can_detect_jubble(other)`. -/
noncomputable def Jubble.can_detect_jubble (j other : Jubble) : Prop :=
  j._can_detect_coord other.x other.y

/-- `will_fight_with_jubble(other)`: `self.age >= other.age` (non-strict). -/
def Jubble.will_fight_with_jubble (j other : Jubble) : Prop :=
  other.age ≤ j.age

/-- `will_win_against_jubble(other)`: older-or-equal and currently detects. -/
noncomputable def Jubble.will_win_against_jubble (j other : Jubble) : Prop :=
  other.age ≤ j.age ∧ j.can_detect_jubble other

/-- `get_radius()` as a function of the effective age (the live age, or the
age at death once dead), capped at `MATURE_AGE` then interpolated linearly
from `BIRTH_SIZE` to `MATURE_SIZE`. -/
noncomputable def radiusOfAge (a : ℕ) : ℝ :=
  ((min a MATURE_AGE : ℕ) : ℝ) / (MATURE_AGE : ℝ) * (MATURE_SIZE - BIRTH_SIZE)
    + BIRTH_SIZE

/-- `get_radius()`.  A dead jubble uses `age_of_death`; in every reachable
dead state that attribute is set (`kill` sets it), so the `getD 0` default is
never read from reachable states (the Python code would raise on `None`). -/
noncomputable def Jubble.get_radius (j : Jubble) : ℝ :=
  radiusOfAge (if j.is_alive then j.age else j.age_of_death.getD 0)

/-- `colliding_with_jubble(other)`: both alive and body circles touching. -/
noncomputable def Jubble.colliding_with_jubble (j other : Jubble) : Prop :=
  j.is_alive = true ∧ other.is_alive = true ∧
  circles_are_touching j.get_pos other.get_pos j.get_radius other.get_radius

/-- `will_be_drawn()`.  Python's `or` short-circuits: the subtraction
`age - age_of_death` is evaluated only when `is_alive` is falsy, and it
raises when `age_of_death` is `None`; that error branch is `none` here. -/
def Jubble.will_be_drawn (j : Jubble) : Option Bool :=
  if j.is_alive then some true
  else j.age_of_death.map
    (fun d : ℕ => decide ((j.age : ℤ) - (d : ℤ) < TIME_TAKEN_TO_DECOMPOSE))

/- ── The per-tick update of a single jubble ────────────────────────────── -/

/-- `_add_random_angle_shift()`, with the drawn noise passed in. -/
def Jubble._add_random_angle_shift (j : Jubble) (shift : ℝ) : Jubble :=
  { j with angle := j.angle + shift }

open Classical in
/-- First statement of `_correct_offmap_drift()`: off the left edge, head right. -/
noncomputable def Jubble._correct_right (j : Jubble) : Jubble :=
  if j.x ≤ HORIZONTAL_RANGE.1 then { j with angle := ANGLE_RIGHT } else j

open Classical in
/-- Second statement of `_correct_offmap_drift()`: off the right edge, head left. -/
noncomputable def Jubble._correct_left (j : Jubble) : Jubble :=
  if j.x ≥ HORIZONTAL_RANGE.2 then { j with angle := ANGLE_LEFT } else j

open Classical in
/-- Third statement of `_correct_offmap_drift()`: off the top edge, head down. -/
noncomputable def Jubble._correct_down (j : Jubble) : Jubble :=
  if j.y ≤ VERTICAL_RANGE.1 then { j with angle := ANGLE_DOWN } else j

open Classical in
/-- Fourth statement of `_correct_offmap_drift()`: off the bottom edge, head up. -/
noncomputable def Jubble._correct_up (j : Jubble) : Jubble :=
  if j.y ≥ VERTICAL_RANGE.2 then { j with angle := ANGLE_UP } else j

/-- `_correct_offmap_drift()`: the four sequential checks, each resetting the
angle (never the position). -/
noncomputable def Jubble._correct_offmap_drift (j : Jubble) : Jubble :=
  j._correct_right._correct_left._correct_down._correct_up

/-- `_move_one_unit()`: advance by `speed` along `angle`, then correct. -/
noncomputable def Jubble._move_one_unit (j : Jubble) : Jubble :=
  let c := to_cartesian j.angle j.speed
  Jubble._correct_offmap_drift { j with x := j.x + c.1, y := j.y + c.2 }

open Classical in
/-- `_handle_coord_goal()`: steer toward the goal; if within one step of it,
snap onto it and clear the flag.  Reading an unset `goal_x`/`goal_y` would
raise in Python; with the `has_coord_goal` discipline that never happens, and
the model leaves the jubble unchanged on that branch. -/
noncomputable def Jubble._handle_coord_goal (j : Jubble) : Jubble :=
  match j.goal_x, j.goal_y with
  | some gx, some gy =>
    let j1 : Jubble := { j with angle := (to_polar (gx - j.x) (gy - j.y)).1 }
    if j1.has_coord_goal = true ∧ dist (j1.x, j1.y) (gx, gy) ≤ j1.speed then
      { j1 with has_coord_goal := false, x := gx, y := gy }
    else j1
  | _, _ => j

open Classical in
/-- `_handle_jubble_goal()`: the target's current state is read through the
goal reference and is passed in resolved (`target`); if it is alive and
chaseable, derive a coordinate goal from its position, else clear the
jubble-goal flag.  (An unset `goal_jubble` would raise in Python; under the
`has_jubble_goal` discipline the reference is always set.) -/
noncomputable def Jubble._handle_jubble_goal (j : Jubble) (target : Option Jubble) : Jubble :=
  match target with
  | some t =>
    if t.is_alive = true ∧ j.can_chase_jubble t then
      j.set_coord_goal t.x t.y
    else { j with has_jubble_goal := false }
  | none => { j with has_jubble_goal := false }

open Classical in
/-- `update()`: while alive, re-evaluate the jubble goal, then either steer
toward a coordinate goal or (with probability `CHANCE_OF_TURN`) add random
angle noise, then move; dead or alive, get older.  The random outcomes are
the `doTurn`/`shift` oracle arguments; `target` is the dereferenced
`goal_jubble`. -/
noncomputable def Jubble.update (j : Jubble) (target : Option Jubble)
    (doTurn : Bool) (shift : ℝ) : Jubble :=
  let j1 :=
    if j.is_alive = true then
      let j2 := if j.has_jubble_goal = true then j._handle_jubble_goal target else j
      let j3 :=
        if j2.has_coord_goal = true then j2._handle_coord_goal
        else if doTurn = true then j2._add_random_angle_shift shift
        else j2
      j3._move_one_unit
    else j
  j1._get_older

/- ── The population stepper (`update_jubbles`) ─────────────────────────── -/

/-- The Python heap: jubble objects addressed by reference.  A population
list holds references into the store, as a Python list holds object
references. -/
def Store : Type := ℕ → Jubble

open Classical in
/-- One iteration of the fight-resolution loop of `update_jubbles` for the
jubble at reference `r`: if it has a jubble goal, is colliding with the goal
target and would win against it, the target is killed — the kill is written
back to the (shared, mutable) store immediately. -/
noncomputable def fightStep (s : Store) (r : ℕ) : Store :=
  let a := s r
  match a.goal_jubble with
  | some g =>
    if a.has_jubble_goal = true ∧ a.colliding_with_jubble (s g) then
      (if a.will_win_against_jubble (s g) then Function.update s g (s g).kill
       else s)
    else s
  | none => s

/-- The fight-resolution phase: the loop `for j in xrange(len(old_jubbles))`
with in-place kills. -/
noncomputable def fightPhase (s : Store) (refs : List ℕ) : Store :=
  refs.foldl fightStep s

open Classical in
/-- One iteration of the goal-assignment double loop, for the pair of
references `(jr, ojr)` (the index-inequality check `j != oj` is applied by
the caller).  Both condition reads (`old_jubbles[...]`) and the mutation
(`new_jubbles[j].set_jubble_goal(new_jubbles[oj])`) address the same shared
objects, i.e. the same store. -/
noncomputable def assignStep (s : Store) (jr ojr : ℕ) : Store :=
  if (s jr).is_alive = true ∧ (s ojr).is_alive = true then
    (if (s jr).has_jubble_goal = false ∧
        (s jr).can_detect_jubble (s ojr) ∧
        (s jr).will_fight_with_jubble (s ojr) then
      Function.update s jr ((s jr).set_jubble_goal ojr)
     else s)
  else s

/-- The goal-assignment phase: the nested loops over indices of
`new_jubbles` and `old_jubbles` (equal lists after the shallow copy). -/
noncomputable def assignPhase (s : Store) (refs : List ℕ) : Store :=
  (List.range refs.length).foldl
    (fun s1 j =>
      (List.range refs.length).foldl
        (fun s2 oj =>
          if j ≠ oj then assignStep s2 (refs.getD j 0) (refs.getD oj 0) else s2)
        s1)
    s

/-- The prune filter `[nj for nj in new_jubbles if nj.will_be_drawn()]`.
(`getD false` stands in for the error branch of `will_be_drawn`, which is
unreachable from reachable stores.) -/
def prunePhase (s : Store) (refs : List ℕ) : List ℕ :=
  refs.filter (fun r => ((s r).will_be_drawn).getD false)

/-- One iteration of the update loop: dereference the current jubble's goal
reference against the current store (earlier updates of this very phase are
visible) and write the updated jubble back. -/
noncomputable def updateStep (s : Store) (r : ℕ) (orc : Bool × ℝ) : Store :=
  let a := s r
  Function.update s r (a.update (a.goal_jubble.map s) orc.1 orc.2)

/-- The per-agent update phase, with the random outcomes for the i-th list
position supplied by the oracle `orcs`. -/
noncomputable def updatePhase (s : Store) (refs : List ℕ) (orcs : ℕ → Bool × ℝ) : Store :=
  refs.enum.foldl (fun s1 p => updateStep s1 p.2 (orcs p.1)) s

/-- `update_jubbles(old_jubbles)`: fight resolution on the pre-tick list,
then `new_jubbles = copy.copy(old_jubbles)` — a shallow copy, which copies
the list container (here: the reference list, unchanged) while sharing the
jubble objects (here: the store) — then goal assignment, pruning and the
per-agent updates.  The erase/draw phases are rendering-only side effects
and are omitted.  Returns the final heap and the surviving reference list. -/
noncomputable def update_jubbles (s : Store) (old_jubbles : List ℕ)
    (orcs : ℕ → Bool × ℝ) : Store × List ℕ :=
  let s1 := fightPhase s old_jubbles
  let new_jubbles := old_jubbles
  let s2 := assignPhase s1 new_jubbles
  let new_jubbles2 := prunePhase s2 new_jubbles
  let s3 := updatePhase s2 new_jubbles2 orcs
  (s3, new_jubbles2)

/- ── The claimed simultaneous fight semantics (from the spec's words) ──── -/

open Classical in
/-- Modelled from the spec (claim C1's refinement target, not from the
source): the fight-resolution phase as the spec describes it — every kill
decision is computed from the unmodified pre-tick store `s`, and the kills
are then applied. -/
noncomputable def fightStepSim (s : Store) (s2 : Store) (r : ℕ) : Store :=
  let a := s r
  match a.goal_jubble with
  | some g =>
    if a.has_jubble_goal = true ∧ a.colliding_with_jubble (s g) then
      (if a.will_win_against_jubble (s g) then Function.update s2 g (s g).kill
       else s2)
    else s2
  | none => s2

/-- Modelled from the spec: all decisions against the pre-tick snapshot,
then all kills applied. -/
noncomputable def fightPhaseSim (s : Store) (refs : List ℕ) : Store :=
  refs.foldl (fightStepSim s) s

/- ── Field-preservation lemmas for the agent operations ────────────────── -/

@[simp] lemma kill_is_alive (j : Jubble) : j.kill.is_alive = false := rfl

@[simp] lemma kill_age_of_death (j : Jubble) : j.kill.age_of_death = some j.age := rfl

@[simp] lemma kill_age (j : Jubble) : j.kill.age = j.age := rfl

@[simp] lemma kill_has_jubble_goal (j : Jubble) :
    j.kill.has_jubble_goal = j.has_jubble_goal := rfl

@[simp] lemma kill_goal_jubble (j : Jubble) : j.kill.goal_jubble = j.goal_jubble := rfl

@[simp] lemma set_jubble_goal_is_alive (j : Jubble) (r : ℕ) :
    (j.set_jubble_goal r).is_alive = j.is_alive := rfl

@[simp] lemma set_jubble_goal_age_of_death (j : Jubble) (r : ℕ) :
    (j.set_jubble_goal r).age_of_death = j.age_of_death := rfl

@[simp] lemma set_jubble_goal_age (j : Jubble) (r : ℕ) :
    (j.set_jubble_goal r).age = j.age := rfl

@[simp] lemma set_jubble_goal_x (j : Jubble) (r : ℕ) :
    (j.set_jubble_goal r).x = j.x := rfl

@[simp] lemma set_jubble_goal_y (j : Jubble) (r : ℕ) :
    (j.set_jubble_goal r).y = j.y := rfl

@[simp] lemma set_jubble_goal_has_jubble_goal (j : Jubble) (r : ℕ) :
    (j.set_jubble_goal r).has_jubble_goal = true := rfl

@[simp] lemma set_jubble_goal_goal_jubble (j : Jubble) (r : ℕ) :
    (j.set_jubble_goal r).goal_jubble = some r := rfl

@[simp] lemma set_jubble_goal_has_coord_goal (j : Jubble) (r : ℕ) :
    (j.set_jubble_goal r).has_coord_goal = j.has_coord_goal := rfl

@[simp] lemma set_coord_goal_is_alive (j : Jubble) (gx gy : ℝ) :
    (j.set_coord_goal gx gy).is_alive = j.is_alive := by
  unfold Jubble.set_coord_goal; split_ifs <;> rfl

@[simp] lemma set_coord_goal_age_of_death (j : Jubble) (gx gy : ℝ) :
    (j.set_coord_goal gx gy).age_of_death = j.age_of_death := by
  unfold Jubble.set_coord_goal; split_ifs <;> rfl

@[simp] lemma set_coord_goal_age (j : Jubble) (gx gy : ℝ) :
    (j.set_coord_goal gx gy).age = j.age := by
  unfold Jubble.set_coord_goal; split_ifs <;> rfl

@[simp] lemma set_coord_goal_x (j : Jubble) (gx gy : ℝ) :
    (j.set_coord_goal gx gy).x = j.x := by
  unfold Jubble.set_coord_goal; split_ifs <;> rfl

@[simp] lemma set_coord_goal_y (j : Jubble) (gx gy : ℝ) :
    (j.set_coord_goal gx gy).y = j.y := by
  unfold Jubble.set_coord_goal; split_ifs <;> rfl

@[simp] lemma set_coord_goal_has_jubble_goal (j : Jubble) (gx gy : ℝ) :
    (j.set_coord_goal gx gy).has_jubble_goal = j.has_jubble_goal := by
  unfold Jubble.set_coord_goal; split_ifs <;> rfl

@[simp] lemma correct_offmap_x (j : Jubble) : j._correct_offmap_drift.x = j.x := by
  unfold Jubble._correct_offmap_drift
    Jubble._correct_right Jubble._correct_left Jubble._correct_down Jubble._correct_up
  split_ifs <;> rfl

@[simp] lemma correct_offmap_y (j : Jubble) : j._correct_offmap_drift.y = j.y := by
  unfold Jubble._correct_offmap_drift
    Jubble._correct_right Jubble._correct_left Jubble._correct_down Jubble._correct_up
  split_ifs <;> rfl

@[simp] lemma correct_offmap_is_alive (j : Jubble) :
    j._correct_offmap_drift.is_alive = j.is_alive := by
  unfold Jubble._correct_offmap_drift
    Jubble._correct_right Jubble._correct_left Jubble._correct_down Jubble._correct_up
  split_ifs <;> rfl

@[simp] lemma correct_offmap_age_of_death (j : Jubble) :
    j._correct_offmap_drift.age_of_death = j.age_of_death := by
  unfold Jubble._correct_offmap_drift
    Jubble._correct_right Jubble._correct_left Jubble._correct_down Jubble._correct_up
  split_ifs <;> rfl

@[simp] lemma correct_offmap_age (j : Jubble) :
    j._correct_offmap_drift.age = j.age := by
  unfold Jubble._correct_offmap_drift
    Jubble._correct_right Jubble._correct_left Jubble._correct_down Jubble._correct_up
  split_ifs <;> rfl

@[simp] lemma move_one_unit_x (j : Jubble) :
    j._move_one_unit.x = j.x + j.speed * Real.cos j.angle := by
  unfold Jubble._move_one_unit to_cartesian
  dsimp only
  rw [correct_offmap_x]

@[simp] lemma move_one_unit_y (j : Jubble) :
    j._move_one_unit.y = j.y + j.speed * Real.sin j.angle := by
  unfold Jubble._move_one_unit to_cartesian
  dsimp only
  rw [correct_offmap_y]

@[simp] lemma move_one_unit_is_alive (j : Jubble) :
    j._move_one_unit.is_alive = j.is_alive := by
  unfold Jubble._move_one_unit; dsimp only; rw [correct_offmap_is_alive]

@[simp] lemma move_one_unit_age_of_death (j : Jubble) :
    j._move_one_unit.age_of_death = j.age_of_death := by
  unfold Jubble._move_one_unit; dsimp only; rw [correct_offmap_age_of_death]

@[simp] lemma move_one_unit_age (j : Jubble) :
    j._move_one_unit.age = j.age := by
  unfold Jubble._move_one_unit; dsimp only; rw [correct_offmap_age]

@[simp] lemma handle_coord_goal_is_alive (j : Jubble) :
    j._handle_coord_goal.is_alive = j.is_alive := by
  unfold Jubble._handle_coord_goal
  split <;> first | rfl | (dsimp only; split_ifs <;> rfl)

@[simp] lemma handle_coord_goal_age_of_death (j : Jubble) :
    j._handle_coord_goal.age_of_death = j.age_of_death := by
  unfold Jubble._handle_coord_goal
  split <;> first | rfl | (dsimp only; split_ifs <;> rfl)

@[simp] lemma handle_coord_goal_age (j : Jubble) :
    j._handle_coord_goal.age = j.age := by
  unfold Jubble._handle_coord_goal
  split <;> first | rfl | (dsimp only; split_ifs <;> rfl)

@[simp] lemma handle_coord_goal_speed (j : Jubble) :
    j._handle_coord_goal.speed = j.speed := by
  unfold Jubble._handle_coord_goal
  split <;> first | rfl | (dsimp only; split_ifs <;> rfl)

@[simp] lemma handle_jubble_goal_is_alive (j : Jubble) (t : Option Jubble) :
    (j._handle_jubble_goal t).is_alive = j.is_alive := by
  unfold Jubble._handle_jubble_goal
  split
  · split_ifs
    · rw [set_coord_goal_is_alive]
    · rfl
  · rfl

@[simp] lemma handle_jubble_goal_age_of_death (j : Jubble) (t : Option Jubble) :
    (j._handle_jubble_goal t).age_of_death = j.age_of_death := by
  unfold Jubble._handle_jubble_goal
  split
  · split_ifs
    · rw [set_coord_goal_age_of_death]
    · rfl
  · rfl

@[simp] lemma handle_jubble_goal_age (j : Jubble) (t : Option Jubble) :
    (j._handle_jubble_goal t).age = j.age := by
  unfold Jubble._handle_jubble_goal
  split
  · split_ifs
    · rw [set_coord_goal_age]
    · rfl
  · rfl

@[simp] lemma get_older_x (j : Jubble) : j._get_older.x = j.x := by
  unfold Jubble._get_older; dsimp only; split_ifs <;> rfl

@[simp] lemma get_older_y (j : Jubble) : j._get_older.y = j.y := by
  unfold Jubble._get_older; dsimp only; split_ifs <;> rfl

@[simp] lemma get_older_age (j : Jubble) : j._get_older.age = j.age + 1 := by
  unfold Jubble._get_older; dsimp only; split_ifs <;> rfl

/- ── Concrete agents for witnesses and counterexamples ─────────────────── -/

/-- A concrete live jubble: at (100, 100), heading 0, default speed and
detection parameters, age 500, alive, no goals. -/
def baseJubble : Jubble :=
  { id := 0, x := 100, y := 100, angle := 0, speed := DEF_SPEED,
    detection_radius := DEF_DETECTION_RADIUS, age := 500, is_alive := true,
    age_of_death := none, has_coord_goal := false, has_jubble_goal := false,
    goal_x := none, goal_y := none, goal_jubble := none }

/-- A jubble sitting exactly on the left margin, heading left (`π`), no
goals: such a heading is reachable by the random walk. -/
noncomputable def leftboundJubble : Jubble :=
  { baseJubble with x := 30, y := 240, angle := ANGLE_LEFT }

/- ── C6: kill() and age-of-death ──────────────────────────────────────── -/

/-- C6 counterexample: `kill()` records age-of-death unconditionally, so a
second `kill()` after one aging tick (`update` on the corpse) overwrites
age-of-death: after the first `kill()` at age 500 it is 500, but a later
`kill()` resets it to the now-current age 501 — not equal to its value after
the first call, contradicting the claimed first-call-only recording. -/
theorem kill_overwrites_age_of_death :
    (baseJubble.kill.update none false 0).kill.age_of_death
        ≠ baseJubble.kill.age_of_death ∧
    (baseJubble.kill.update none false 0).kill.age_of_death = some 501 ∧
    baseJubble.kill.age_of_death = some 500 := by
  have hdead : baseJubble.kill.is_alive = false := rfl
  have hupd : (baseJubble.kill.update none false 0) = baseJubble.kill._get_older := by
    unfold Jubble.update
    rw [if_neg (by rw [hdead]; simp)]
  have hold : baseJubble.kill._get_older = { baseJubble.kill with age := 501 } := by
    unfold Jubble._get_older
    dsimp only
    rw [if_neg (by simp [baseJubble, Jubble.kill, DEATH_AGE])]
    rfl
  rw [hupd, hold]
  refine ⟨by simp [Jubble.kill, baseJubble], rfl, rfl⟩

/-- C6 (amended): `kill()` unconditionally records the current age as
age-of-death; with no aging in between, a repeated `kill()` is idempotent
(it rewrites the same values), but any aging between the two calls moves
age-of-death.  Within the program, `kill` is only ever invoked on agents
that are alive at that moment, so the overwrite is not exercised there. -/
theorem kill_idempotent_without_aging (j : Jubble) : j.kill.kill = j.kill := rfl

/- ── C8: radius as a function of age ──────────────────────────────────── -/

/-- C8: the radius is strictly increasing in (effective) age up to
`MATURE_AGE`, constant equal to `MATURE_SIZE` from `MATURE_AGE` on; a live
jubble's radius reads its live age, and a dead jubble's radius reads its
age-of-death — it does not depend on the corpse's continued aging. -/
theorem get_radius_spec :
    (∀ a1 a2 : ℕ, a1 < a2 → a2 ≤ MATURE_AGE → radiusOfAge a1 < radiusOfAge a2) ∧
    (∀ a1 a2 : ℕ, MATURE_AGE ≤ a1 → MATURE_AGE ≤ a2 →
        radiusOfAge a1 = radiusOfAge a2 ∧ radiusOfAge a1 = MATURE_SIZE) ∧
    (∀ j : Jubble, j.is_alive = true → j.get_radius = radiusOfAge j.age) ∧
    (∀ (j : Jubble) (a : ℕ), j.is_alive = false →
        Jubble.get_radius { j with age := a } = j.get_radius) := by
  refine ⟨?_, ?_, ?_, ?_⟩
  · intro a1 a2 h12 h2
    have hm1 : min a1 MATURE_AGE = a1 := min_eq_left (le_trans (Nat.le_of_lt h12) h2)
    have hm2 : min a2 MATURE_AGE = a2 := min_eq_left h2
    have hc : (a1 : ℝ) < (a2 : ℝ) := by exact_mod_cast h12
    unfold radiusOfAge
    rw [hm1, hm2]
    unfold MATURE_AGE MATURE_SIZE BIRTH_SIZE
    push_cast
    nlinarith [hc]
  · intro a1 a2 h1 h2
    have hm1 : min a1 MATURE_AGE = MATURE_AGE := min_eq_right h1
    have hm2 : min a2 MATURE_AGE = MATURE_AGE := min_eq_right h2
    unfold radiusOfAge
    rw [hm1, hm2]
    refine ⟨rfl, ?_⟩
    unfold MATURE_AGE MATURE_SIZE BIRTH_SIZE
    norm_num
  · intro j h
    unfold Jubble.get_radius
    rw [h]
    simp
  · intro j a h
    unfold Jubble.get_radius
    dsimp only
    rw [h]
    simp

/-- C8 witness: concrete instances of each conjunct. -/
theorem get_radius_spec_witness :
    radiusOfAge 0 < radiusOfAge 600 ∧
    radiusOfAge 3000 = MATURE_SIZE ∧
    baseJubble.get_radius = radiusOfAge 500 ∧
    Jubble.get_radius { baseJubble.kill with age := 3000 } = baseJubble.kill.get_radius :=
  ⟨get_radius_spec.1 0 600 (by norm_num) (by norm_num [MATURE_AGE]),
   (get_radius_spec.2.1 3000 600 (by norm_num [MATURE_AGE]) (by norm_num [MATURE_AGE])).2,
   get_radius_spec.2.2.1 baseJubble rfl,
   get_radius_spec.2.2.2 baseJubble.kill 3000 rfl⟩

/- ── C9: the decomposition window of will_be_drawn ─────────────────────── -/

/-- C9: `will_be_drawn()` is `True` for a live jubble; for a dead jubble
with recorded age-of-death `d` it is `True` exactly while
`age - d < TIME_TAKEN_TO_DECOMPOSE`; in particular it is `True` at
`age - d = 299` and `False` at `age - d = 300`. -/
theorem will_be_drawn_spec :
    (∀ j : Jubble, j.is_alive = true → j.will_be_drawn = some true) ∧
    (∀ (j : Jubble) (d : ℕ), j.is_alive = false → j.age_of_death = some d →
        (j.will_be_drawn = some true ↔ (j.age : ℤ) - (d : ℤ) < TIME_TAKEN_TO_DECOMPOSE)) ∧
    (∀ (j : Jubble) (d : ℕ), j.is_alive = false → j.age_of_death = some d →
        j.age = d + 299 → j.will_be_drawn = some true) ∧
    (∀ (j : Jubble) (d : ℕ), j.is_alive = false → j.age_of_death = some d →
        j.age = d + 300 → j.will_be_drawn = some false) := by
  refine ⟨?_, ?_, ?_, ?_⟩
  · intro j h
    unfold Jubble.will_be_drawn
    rw [h]
    simp
  · intro j d h hd
    unfold Jubble.will_be_drawn
    rw [h, hd]
    simp
  · intro j d h hd ha
    unfold Jubble.will_be_drawn
    rw [h, hd, ha]
    simp only [Bool.false_eq_true, if_false, Option.map_some]
    norm_num [TIME_TAKEN_TO_DECOMPOSE]
  · intro j d h hd ha
    unfold Jubble.will_be_drawn
    rw [h, hd, ha]
    simp only [Bool.false_eq_true, if_false, Option.map_some]
    norm_num [TIME_TAKEN_TO_DECOMPOSE]

/-- C9 witness: a live jubble; and a jubble that died at age 500, at ages
799 and 800. -/
theorem will_be_drawn_spec_witness :
    baseJubble.will_be_drawn = some true ∧
    Jubble.will_be_drawn { baseJubble.kill with age := 799 } = some true ∧
    Jubble.will_be_drawn { baseJubble.kill with age := 800 } = some false :=
  ⟨will_be_drawn_spec.1 baseJubble rfl,
   will_be_drawn_spec.2.2.1 _ 500 rfl rfl (by norm_num),
   will_be_drawn_spec.2.2.2 _ 500 rfl rfl (by norm_num)⟩

/- ── C3: goal exclusivity ─────────────────────────────────────────────── -/

/-- C3 counterexample: after `set_jubble_goal` followed by an accepted
`set_coord_goal (100, 100)` the agent holds a coordinate-goal AND an
agent-goal at the same time — `set_coord_goal` does not clear the
agent-goal, contradicting the claimed mutual exclusion. -/
theorem goal_states_not_exclusive :
    ((baseJubble.set_jubble_goal 7).set_coord_goal 100 100).has_coord_goal = true ∧
    ((baseJubble.set_jubble_goal 7).set_coord_goal 100 100).has_jubble_goal = true := by
  have hacc : (HORIZONTAL_RANGE.1 ≤ (100:ℝ) ∧ (100:ℝ) ≤ HORIZONTAL_RANGE.2) ∧
      (VERTICAL_RANGE.1 ≤ (100:ℝ) ∧ (100:ℝ) ≤ VERTICAL_RANGE.2) := by
    norm_num [HORIZONTAL_RANGE, VERTICAL_RANGE, SCREEN_SIZE, EDGE_AVOIDANCE]
  unfold Jubble.set_coord_goal
  rw [if_pos hacc]
  exact ⟨rfl, rfl⟩

/-- C3 (amended): the coordinate-goal and agent-goal flags are independent:
`set_jubble_goal` leaves the coordinate-goal flag untouched, an accepted
`set_coord_goal` leaves the agent-goal flag untouched, and after
`set_jubble_goal` followed by an accepted `set_coord_goal` both goals are
held simultaneously (the per-tick chase indeed derives a coordinate-goal
while keeping the agent-goal). -/
theorem goal_flags_independent (j : Jubble) (r : ℕ) (gx gy : ℝ)
    (h : (HORIZONTAL_RANGE.1 ≤ gx ∧ gx ≤ HORIZONTAL_RANGE.2) ∧
         (VERTICAL_RANGE.1 ≤ gy ∧ gy ≤ VERTICAL_RANGE.2)) :
    (j.set_jubble_goal r).has_coord_goal = j.has_coord_goal ∧
    (j.set_coord_goal gx gy).has_jubble_goal = j.has_jubble_goal ∧
    ((j.set_jubble_goal r).set_coord_goal gx gy).has_coord_goal = true ∧
    ((j.set_jubble_goal r).set_coord_goal gx gy).has_jubble_goal = true := by
  refine ⟨rfl, set_coord_goal_has_jubble_goal j gx gy, ?_, ?_⟩ <;>
    (unfold Jubble.set_coord_goal; rw [if_pos h]; try rfl)

/-- C3 witness for the amended statement, at in-bounds coordinates. -/
theorem goal_flags_independent_witness :
    (baseJubble.set_jubble_goal 7).has_coord_goal = baseJubble.has_coord_goal ∧
    (baseJubble.set_coord_goal 100 100).has_jubble_goal = baseJubble.has_jubble_goal ∧
    ((baseJubble.set_jubble_goal 7).set_coord_goal 100 100).has_coord_goal = true ∧
    ((baseJubble.set_jubble_goal 7).set_coord_goal 100 100).has_jubble_goal = true :=
  goal_flags_independent baseJubble 7 100 100
    (by norm_num [HORIZONTAL_RANGE, VERTICAL_RANGE, SCREEN_SIZE, EDGE_AVOIDANCE])

/- ── C4: boundary containment ─────────────────────────────────────────── -/

/-- For an alive agent with no goals, `update` reduces to (optional random
turn, then) move, then age. -/
lemma update_nogoal_eq (j : Jubble) (t : Option Jubble) (dt : Bool) (sh : ℝ)
    (ha : j.is_alive = true) (hjg : j.has_jubble_goal = false)
    (hcg : j.has_coord_goal = false) :
    j.update t dt sh
      = ((if dt = true then j._add_random_angle_shift sh else j)._move_one_unit)._get_older := by
  unfold Jubble.update
  dsimp only
  rw [if_pos ha]
  rw [if_neg (show ¬(j.has_jubble_goal = true) by rw [hjg]; exact Bool.false_ne_true)]
  rw [if_neg (show ¬(j.has_coord_goal = true) by rw [hcg]; exact Bool.false_ne_true)]

lemma update_nogoal_x (j : Jubble) (t : Option Jubble) (dt : Bool) (sh : ℝ)
    (ha : j.is_alive = true) (hjg : j.has_jubble_goal = false)
    (hcg : j.has_coord_goal = false) :
    (j.update t dt sh).x
      = j.x + j.speed * Real.cos (if dt = true then j.angle + sh else j.angle) := by
  rw [update_nogoal_eq j t dt sh ha hjg hcg, get_older_x, move_one_unit_x]
  cases dt <;> simp [Jubble._add_random_angle_shift]

lemma update_nogoal_y (j : Jubble) (t : Option Jubble) (dt : Bool) (sh : ℝ)
    (ha : j.is_alive = true) (hjg : j.has_jubble_goal = false)
    (hcg : j.has_coord_goal = false) :
    (j.update t dt sh).y
      = j.y + j.speed * Real.sin (if dt = true then j.angle + sh else j.angle) := by
  rw [update_nogoal_eq j t dt sh ha hjg hcg, get_older_y, move_one_unit_y]
  cases dt <;> simp [Jubble._add_random_angle_shift]

/-- C4 counterexample: a goal-free agent whose position starts inside the
playable rectangle (exactly on the left margin, a position construction can
draw) and whose heading points left — a heading the random walk can reach —
moves to `x = 29 < margin` in one `update()` tick: the position leaves the
playable rectangle, because `_correct_offmap_drift` redirects only the
heading and never clamps the position. -/
theorem update_exits_bounds :
    HORIZONTAL_RANGE.1 ≤ leftboundJubble.x ∧ leftboundJubble.x ≤ HORIZONTAL_RANGE.2 ∧
    VERTICAL_RANGE.1 ≤ leftboundJubble.y ∧ leftboundJubble.y ≤ VERTICAL_RANGE.2 ∧
    leftboundJubble.has_coord_goal = false ∧ leftboundJubble.has_jubble_goal = false ∧
    (leftboundJubble.update none false 0).x < HORIZONTAL_RANGE.1 := by
  have h1 : (leftboundJubble.update none false 0).x
      = leftboundJubble.x + leftboundJubble.speed * Real.cos leftboundJubble.angle := by
    rw [update_nogoal_x leftboundJubble none false 0 rfl rfl rfl]
    simp
  refine ⟨?_, ?_, ?_, ?_, rfl, rfl, ?_⟩
  · norm_num [leftboundJubble, baseJubble, HORIZONTAL_RANGE, SCREEN_SIZE, EDGE_AVOIDANCE]
  · norm_num [leftboundJubble, baseJubble, HORIZONTAL_RANGE, SCREEN_SIZE, EDGE_AVOIDANCE]
  · norm_num [leftboundJubble, baseJubble, VERTICAL_RANGE, SCREEN_SIZE, EDGE_AVOIDANCE]
  · norm_num [leftboundJubble, baseJubble, VERTICAL_RANGE, SCREEN_SIZE, EDGE_AVOIDANCE]
  · rw [h1]
    norm_num [leftboundJubble, baseJubble, ANGLE_LEFT, Real.cos_pi, DEF_SPEED,
      HORIZONTAL_RANGE, SCREEN_SIZE, EDGE_AVOIDANCE]

/-- C4 (amended): the containment that actually holds is containment with a
one-step slack of `speed`: a goal-free alive agent whose position is inside
the playable rectangle is, after one `update()` tick, within the rectangle
enlarged by `speed` on every side (each coordinate moves by at most
`speed`); the boundary handling only redirects the heading, so the exact
rectangle is not invariant (the counterexample exits it), but the agent can
never be deeper outside than one step's travel from inside. -/
theorem update_offmap_slack (j : Jubble) (t : Option Jubble) (dt : Bool) (sh : ℝ)
    (ha : j.is_alive = true) (hjg : j.has_jubble_goal = false)
    (hcg : j.has_coord_goal = false) (hsp : 0 ≤ j.speed)
    (hx1 : HORIZONTAL_RANGE.1 ≤ j.x) (hx2 : j.x ≤ HORIZONTAL_RANGE.2)
    (hy1 : VERTICAL_RANGE.1 ≤ j.y) (hy2 : j.y ≤ VERTICAL_RANGE.2) :
    HORIZONTAL_RANGE.1 - j.speed ≤ (j.update t dt sh).x ∧
    (j.update t dt sh).x ≤ HORIZONTAL_RANGE.2 + j.speed ∧
    VERTICAL_RANGE.1 - j.speed ≤ (j.update t dt sh).y ∧
    (j.update t dt sh).y ≤ VERTICAL_RANGE.2 + j.speed := by
  have hxe := update_nogoal_x j t dt sh ha hjg hcg
  have hye := update_nogoal_y j t dt sh ha hjg hcg
  set th := (if dt = true then j.angle + sh else j.angle) with hth
  have hc1 := Real.neg_one_le_cos th
  have hc2 := Real.cos_le_one th
  have hs1 := Real.neg_one_le_sin th
  have hs2 := Real.sin_le_one th
  refine ⟨?_, ?_, ?_, ?_⟩
  · rw [hxe]; nlinarith
  · rw [hxe]; nlinarith
  · rw [hye]; nlinarith
  · rw [hye]; nlinarith

/-- C4 witness (amended statement): the base jubble, inside the rectangle,
after one tick with no random turn. -/
theorem update_offmap_slack_witness :
    HORIZONTAL_RANGE.1 - baseJubble.speed ≤ (baseJubble.update none false 0).x ∧
    (baseJubble.update none false 0).x ≤ HORIZONTAL_RANGE.2 + baseJubble.speed ∧
    VERTICAL_RANGE.1 - baseJubble.speed ≤ (baseJubble.update none false 0).y ∧
    (baseJubble.update none false 0).y ≤ VERTICAL_RANGE.2 + baseJubble.speed :=
  update_offmap_slack baseJubble none false 0 rfl rfl rfl
    (by norm_num [baseJubble, DEF_SPEED])
    (by norm_num [baseJubble, HORIZONTAL_RANGE, SCREEN_SIZE, EDGE_AVOIDANCE])
    (by norm_num [baseJubble, HORIZONTAL_RANGE, SCREEN_SIZE, EDGE_AVOIDANCE])
    (by norm_num [baseJubble, VERTICAL_RANGE, SCREEN_SIZE, EDGE_AVOIDANCE])
    (by norm_num [baseJubble, VERTICAL_RANGE, SCREEN_SIZE, EDGE_AVOIDANCE])

/- ── Evaluation helpers for atan2 and dist ─────────────────────────────── -/

lemma atan2_zero_pos (x : ℝ) (hx : 0 < x) : atan2 0 x = 0 := by
  unfold atan2
  rw [if_pos hx]
  simp

lemma atan2_zero_neg (x : ℝ) (hx : x < 0) : atan2 0 x = Real.pi := by
  unfold atan2
  rw [if_neg (by linarith), if_pos hx, if_pos le_rfl]
  simp

lemma atan2_zero_zero : atan2 0 0 = 0 := by
  unfold atan2
  norm_num

lemma atan2_neg_zero (y : ℝ) (hy : y < 0) : atan2 y 0 = -(Real.pi / 2) := by
  unfold atan2
  rw [if_neg (lt_irrefl 0), if_neg (lt_irrefl 0), if_neg (by linarith), if_pos hy]

lemma dist_eq (x1 y1 x2 y2 c : ℝ) (hc : 0 ≤ c)
    (h : (x1 - x2) ^ 2 + (y1 - y2) ^ 2 = c ^ 2) :
    dist (x1, y1) (x2, y2) = c := by
  unfold dist
  dsimp only
  rw [h]
  exact Real.sqrt_sq hc

lemma radiusOfAge_nonneg (a : ℕ) : 0 ≤ radiusOfAge a := by
  unfold radiusOfAge MATURE_AGE MATURE_SIZE BIRTH_SIZE
  have h10 : (15 : ℝ) - 5 = 10 := by norm_num
  rw [h10]
  positivity

/- ── C7: the detection cone does not wrap around ──────────────────────── -/

/-- A jubble heading straight up (`ANGLE_UP = 3π/2`, the exact heading that
`_correct_offmap_drift` assigns at the bottom edge). -/
noncomputable def upJubble : Jubble := { baseJubble with angle := ANGLE_UP }

/-- C7 (code bug): with heading `ANGLE_UP = 3π/2`, the point (100, 50) —
fifty units straight ahead of the jubble at (100, 100), well inside the
detection radius and exactly at the centre of the geometric viewing cone
(its direction differs from the heading by `0 (mod 2π)`) — is NOT detected:
`_can_detect_coord` compares the `atan2` result (always in `(-π, π]`)
against the un-normalised interval `[angle - π/4, angle + π/4] = [5π/4, 7π/4]`,
which such a result can never reach.  The claimed equivalence of
`canDetect` with radius-and-cone membership "whatever its current heading
angle" fails; the code's docstring ("whether the point falls within the
jubble's viewing field") and the spec describe the intended geometry. -/
theorem can_detect_blind_when_facing_up :
    ¬ upJubble._can_detect_coord 100 50 ∧
    upJubble._coord_in_range 100 50 ∧
    (∃ k : ℤ, |atan2 ((50 : ℝ) - upJubble.y) ((100 : ℝ) - upJubble.x)
        - upJubble.angle + 2 * Real.pi * k| ≤ DEF_DETECTION_SLICE / 2) := by
  have hy : (50 : ℝ) - upJubble.y = -50 := by
    norm_num [upJubble, baseJubble]
  have hx : (100 : ℝ) - upJubble.x = 0 := by
    norm_num [upJubble, baseJubble]
  have hatan : atan2 ((50 : ℝ) - upJubble.y) ((100 : ℝ) - upJubble.x) = -(Real.pi / 2) := by
    rw [hy, hx]
    exact atan2_neg_zero (-50) (by norm_num)
  have hang : upJubble.angle = Real.pi * 1.5 := rfl
  have hrange : upJubble._coord_in_range 100 50 := by
    unfold Jubble._coord_in_range
    have hd : dist upJubble.get_pos (100, 50) = 50 := by
      have : upJubble.get_pos = ((100 : ℝ), (100 : ℝ)) := rfl
      rw [this]
      exact dist_eq 100 100 100 50 50 (by norm_num) (by norm_num)
    rw [hd]
    show (50 : ℝ) ≤ upJubble.detection_radius
    norm_num [upJubble, baseJubble, DEF_DETECTION_RADIUS]
  refine ⟨?_, hrange, ⟨1, ?_⟩⟩
  · rintro ⟨-, hle, -⟩
    rw [hatan, hang] at hle
    unfold DEF_DETECTION_SLICE at hle
    nlinarith [Real.pi_pos, hle]
  · rw [hatan, hang]
    have : -(Real.pi / 2) - Real.pi * 1.5 + 2 * Real.pi * (1 : ℤ) = 0 := by
      push_cast
      ring
    rw [this, abs_zero]
    unfold DEF_DETECTION_SLICE
    positivity

/- ── Concrete stores and populations ───────────────────────────────────── -/

/-- A heap holding `A` at reference 0 and `B` everywhere else (only
references 0 and 1 are ever used by the two-agent populations below). -/
def store2 (A B : Jubble) : Store := fun i => if i = 0 then A else B

/-- A heap holding `A` at every reference (used with one-agent populations). -/
def store1 (A : Jubble) : Store := fun _ => A

@[simp] lemma store2_zero (A B : Jubble) : store2 A B 0 = A := rfl

@[simp] lemma store2_one (A B : Jubble) : store2 A B 1 = B := rfl

/-- A jubble 100 units to the east of `baseJubble`, facing west (`π`),
same age 500, alive, no goals: `baseJubble` and `eastJubble` are within
each other's detection radius and cone. -/
noncomputable def eastJubble : Jubble := { baseJubble with id := 1, x := 200, angle := ANGLE_LEFT }

/-- `baseJubble` detects `eastJubble` (100 units due east, heading 0). -/
lemma detect_base_east : baseJubble.can_detect_jubble eastJubble := by
  unfold Jubble.can_detect_jubble Jubble._can_detect_coord
  have hatan : atan2 (eastJubble.y - baseJubble.y) (eastJubble.x - baseJubble.x) = 0 := by
    have h1 : eastJubble.y - baseJubble.y = 0 := by norm_num [eastJubble, baseJubble]
    have h2 : eastJubble.x - baseJubble.x = 100 := by norm_num [eastJubble, baseJubble]
    rw [h1, h2]
    exact atan2_zero_pos 100 (by norm_num)
  refine ⟨?_, ?_, ?_⟩
  · unfold Jubble._coord_in_range
    have hd : dist baseJubble.get_pos (eastJubble.x, eastJubble.y) = 100 := by
      have : baseJubble.get_pos = ((100 : ℝ), (100 : ℝ)) := rfl
      rw [this]
      exact dist_eq 100 100 200 100 100 (by norm_num) (by norm_num [eastJubble, baseJubble])
    rw [hd]
    show (100 : ℝ) ≤ baseJubble.detection_radius
    norm_num [baseJubble, DEF_DETECTION_RADIUS]
  · rw [hatan]
    show baseJubble.angle - DEF_DETECTION_SLICE / 2 ≤ 0
    have : baseJubble.angle = 0 := rfl
    rw [this]
    unfold DEF_DETECTION_SLICE
    nlinarith [Real.pi_pos]
  · rw [hatan]
    show (0 : ℝ) ≤ baseJubble.angle + DEF_DETECTION_SLICE / 2
    have : baseJubble.angle = 0 := rfl
    rw [this]
    unfold DEF_DETECTION_SLICE
    nlinarith [Real.pi_pos]

/-- `eastJubble` detects `baseJubble` (100 units due west, heading `π`). -/
lemma detect_east_base : eastJubble.can_detect_jubble baseJubble := by
  unfold Jubble.can_detect_jubble Jubble._can_detect_coord
  have hatan : atan2 (baseJubble.y - eastJubble.y) (baseJubble.x - eastJubble.x) = Real.pi := by
    have h1 : baseJubble.y - eastJubble.y = 0 := by norm_num [eastJubble, baseJubble]
    have h2 : baseJubble.x - eastJubble.x = -100 := by norm_num [eastJubble, baseJubble]
    rw [h1, h2]
    exact atan2_zero_neg (-100) (by norm_num)
  refine ⟨?_, ?_, ?_⟩
  · unfold Jubble._coord_in_range
    have hd : dist eastJubble.get_pos (baseJubble.x, baseJubble.y) = 100 := by
      have : eastJubble.get_pos = ((200 : ℝ), (100 : ℝ)) := rfl
      rw [this]
      exact dist_eq 200 100 100 100 100 (by norm_num) (by norm_num [baseJubble])
    rw [hd]
    show (100 : ℝ) ≤ eastJubble.detection_radius
    norm_num [eastJubble, baseJubble, DEF_DETECTION_RADIUS]
  · rw [hatan]
    show eastJubble.angle - DEF_DETECTION_SLICE / 2 ≤ Real.pi
    have : eastJubble.angle = Real.pi := rfl
    rw [this]
    unfold DEF_DETECTION_SLICE
    nlinarith [Real.pi_pos]
  · rw [hatan]
    show Real.pi ≤ eastJubble.angle + DEF_DETECTION_SLICE / 2
    have : eastJubble.angle = Real.pi := rfl
    rw [this]
    unfold DEF_DETECTION_SLICE
    nlinarith [Real.pi_pos]

/-- Agent A of the mutual-kill configuration: at (100, 100), age 500,
holding agent B (reference 1) as its jubble goal. -/
def fightA : Jubble := { baseJubble with has_jubble_goal := true, goal_jubble := some 1 }

/-- Agent B of the mutual-kill configuration: same position and age,
holding agent A (reference 0) as its jubble goal. -/
def fightB : Jubble :=
  { baseJubble with id := 1, has_jubble_goal := true, goal_jubble := some 0 }

/-- The two coincident fight agents are colliding (distance zero). -/
lemma coll_fightAB : fightA.colliding_with_jubble fightB := by
  unfold Jubble.colliding_with_jubble circles_are_touching
  refine ⟨rfl, rfl, ?_⟩
  have hd : dist fightA.get_pos fightB.get_pos = 0 := by
    have h1 : fightA.get_pos = ((100 : ℝ), (100 : ℝ)) := rfl
    have h2 : fightB.get_pos = ((100 : ℝ), (100 : ℝ)) := rfl
    rw [h1, h2]
    exact dist_eq 100 100 100 100 0 le_rfl (by norm_num)
  rw [hd]
  have hra : fightA.get_radius = radiusOfAge 500 := rfl
  have hrb : fightB.get_radius = radiusOfAge 500 := rfl
  rw [hra, hrb]
  have := radiusOfAge_nonneg 500
  linarith

/-- And symmetrically. -/
lemma coll_fightBA : fightB.colliding_with_jubble fightA := by
  unfold Jubble.colliding_with_jubble circles_are_touching
  refine ⟨rfl, rfl, ?_⟩
  have hd : dist fightB.get_pos fightA.get_pos = 0 := by
    have h1 : fightA.get_pos = ((100 : ℝ), (100 : ℝ)) := rfl
    have h2 : fightB.get_pos = ((100 : ℝ), (100 : ℝ)) := rfl
    rw [h1, h2]
    exact dist_eq 100 100 100 100 0 le_rfl (by norm_num)
  rw [hd]
  have hra : fightA.get_radius = radiusOfAge 500 := rfl
  have hrb : fightB.get_radius = radiusOfAge 500 := rfl
  rw [hra, hrb]
  have := radiusOfAge_nonneg 500
  linarith

/-- A coincident point is detected by a heading-0 jubble
(`atan2(0, 0) = 0` lies inside `[-π/4, π/4]`). -/
lemma detect_coincident (j : Jubble) (hang : j.angle = 0)
    (hrad : j.detection_radius = 150) (ox oy : ℝ)
    (hx : ox = j.x) (hy : oy = j.y) : j._can_detect_coord ox oy := by
  unfold Jubble._can_detect_coord
  have hatan : atan2 (oy - j.y) (ox - j.x) = 0 := by
    rw [hx, hy, sub_self, sub_self]
    exact atan2_zero_zero
  refine ⟨?_, ?_, ?_⟩
  · unfold Jubble._coord_in_range
    have hd : dist j.get_pos (ox, oy) = 0 := by
      unfold Jubble.get_pos
      rw [hx, hy]
      exact dist_eq j.x j.y j.x j.y 0 le_rfl (by ring_nf)
    rw [hd, hrad]
    norm_num
  · rw [hatan, hang]
    unfold DEF_DETECTION_SLICE
    nlinarith [Real.pi_pos]
  · rw [hatan, hang]
    unfold DEF_DETECTION_SLICE
    nlinarith [Real.pi_pos]

/-- A would win against B at the moment of (coincident) collision. -/
lemma win_fightAB : fightA.will_win_against_jubble fightB :=
  ⟨le_rfl, detect_coincident fightA rfl rfl fightB.x fightB.y rfl rfl⟩

/-- And symmetrically. -/
lemma win_fightBA : fightB.will_win_against_jubble fightA :=
  ⟨le_rfl, detect_coincident fightB rfl rfl fightA.x fightA.y rfl rfl⟩

/- ── Phase evaluation lemmas ───────────────────────────────────────────── -/

lemma not_colliding_of_dead (j o : Jubble) (h : j.is_alive = false) :
    ¬ j.colliding_with_jubble o := by
  unfold Jubble.colliding_with_jubble
  rw [h]
  rintro ⟨h1, -⟩
  exact Bool.false_ne_true h1

lemma update_age (j : Jubble) (t : Option Jubble) (dt : Bool) (sh : ℝ) :
    (j.update t dt sh).age = j.age + 1 := by
  unfold Jubble.update
  dsimp only
  rw [get_older_age]
  split_ifs <;> simp [Jubble._add_random_angle_shift]

lemma fightPhase_pair (s : Store) :
    fightPhase s [0, 1] = fightStep (fightStep s 0) 1 := rfl

lemma fightPhaseSim_pair (s : Store) :
    fightPhaseSim s [0, 1] = fightStepSim s (fightStepSim s s 0) 1 := rfl

lemma assignPhase_pair (s : Store) :
    assignPhase s [0, 1] = assignStep (assignStep s 0 1) 1 0 := rfl

/-- First fight iteration in the mutual-kill configuration: agent 0 kills
agent 1. -/
lemma fightStep_mutual_first (A B : Jubble)
    (hAg : A.has_jubble_goal = true) (hAr : A.goal_jubble = some 1)
    (hcoll : A.colliding_with_jubble B) (hwin : A.will_win_against_jubble B) :
    fightStep (store2 A B) 0 = Function.update (store2 A B) 1 B.kill := by
  unfold fightStep
  dsimp only
  rw [show (store2 A B 0).goal_jubble = some 1 from hAr]
  dsimp only
  rw [if_pos (show (store2 A B 0).has_jubble_goal = true ∧
        (store2 A B 0).colliding_with_jubble (store2 A B 1) from ⟨hAg, hcoll⟩)]
  rw [if_pos (show (store2 A B 0).will_win_against_jubble (store2 A B 1) from hwin)]
  rfl

/-- Second fight iteration: agent 1 is dead by now, fails the liveness
conjunct of its collision check, and does not reciprocate. -/
lemma fightStep_mutual_second (A B : Jubble) (hBr : B.goal_jubble = some 0) :
    fightStep (Function.update (store2 A B) 1 B.kill) 1
      = Function.update (store2 A B) 1 B.kill := by
  unfold fightStep
  dsimp only
  rw [show (Function.update (store2 A B) 1 B.kill 1).goal_jubble = some 0 by
        rw [Function.update_same, kill_goal_jubble]; exact hBr]
  dsimp only
  rw [if_neg (fun hcon => not_colliding_of_dead _ _
      (by rw [Function.update_same]; exact kill_is_alive B) hcon.2)]

/-- The sequential fight phase on the two-agent mutual-kill configuration:
agent 0 is left exactly as it was, agent 1 is killed. -/
lemma fightPhase_mutual_eval (A B : Jubble)
    (hAg : A.has_jubble_goal = true) (hAr : A.goal_jubble = some 1)
    (hBr : B.goal_jubble = some 0)
    (hcoll : A.colliding_with_jubble B) (hwin : A.will_win_against_jubble B) :
    fightPhase (store2 A B) [0, 1] 0 = A ∧
    fightPhase (store2 A B) [0, 1] 1 = B.kill := by
  rw [fightPhase_pair, fightStep_mutual_first A B hAg hAr hcoll hwin,
    fightStep_mutual_second A B hBr]
  constructor
  · rw [Function.update_noteq (by decide : (0 : ℕ) ≠ 1)]
    rfl
  · rw [Function.update_same]

/-- The goal-assignment double loop on a two-agent population where both
agents qualify against each other: each acquires the other as its goal.
Because the "pre-tick" reads and the goal writes go through the same shared
objects, the `(0, 1)` iteration's write is visible to the `(1, 0)`
iteration — but agent 1 still qualifies (its own flag is still false). -/
lemma assign_two_mutual (A B : Jubble)
    (hA : A.is_alive = true) (hB : B.is_alive = true)
    (hAg : A.has_jubble_goal = false) (hBg : B.has_jubble_goal = false)
    (hdAB : A.can_detect_jubble B) (hdBA : B.can_detect_jubble A)
    (hfAB : A.will_fight_with_jubble B) (hfBA : B.will_fight_with_jubble A) :
    (assignPhase (store2 A B) [0, 1]) 0 = A.set_jubble_goal 1 ∧
    (assignPhase (store2 A B) [0, 1]) 1 = B.set_jubble_goal 0 := by
  have e1 : assignStep (store2 A B) 0 1
      = Function.update (store2 A B) 0 (A.set_jubble_goal 1) := by
    unfold assignStep
    rw [if_pos (show (store2 A B 0).is_alive = true ∧ (store2 A B 1).is_alive = true
          from ⟨hA, hB⟩)]
    rw [if_pos (show (store2 A B 0).has_jubble_goal = false ∧
          (store2 A B 0).can_detect_jubble (store2 A B 1) ∧
          (store2 A B 0).will_fight_with_jubble (store2 A B 1)
          from ⟨hAg, hdAB, hfAB⟩)]
    rfl
  have h10 : Function.update (store2 A B) 0 (A.set_jubble_goal 1) 1 = B := by
    rw [Function.update_noteq (by decide : (1 : ℕ) ≠ 0)]
    rfl
  have h00 : Function.update (store2 A B) 0 (A.set_jubble_goal 1) 0
      = A.set_jubble_goal 1 := by
    rw [Function.update_same]
  have e2 : assignStep (Function.update (store2 A B) 0 (A.set_jubble_goal 1)) 1 0
      = Function.update (Function.update (store2 A B) 0 (A.set_jubble_goal 1)) 1
          (B.set_jubble_goal 0) := by
    unfold assignStep
    rw [h10, h00]
    rw [if_pos (show B.is_alive = true ∧ (A.set_jubble_goal 1).is_alive = true
          from ⟨hB, by rw [set_jubble_goal_is_alive]; exact hA⟩)]
    rw [if_pos (show B.has_jubble_goal = false ∧
          B.can_detect_jubble (A.set_jubble_goal 1) ∧
          B.will_fight_with_jubble (A.set_jubble_goal 1)
          from ⟨hBg, hdBA, hfBA⟩)]
  rw [assignPhase_pair, e1, e2]
  constructor
  · rw [Function.update_noteq (by decide : (0 : ℕ) ≠ 1), h00]
  · rw [Function.update_same]

/- ── C1: fight resolution is sequential, not simultaneous ──────────────── -/

/-- C1 counterexample: in the mutual-kill configuration — two coincident,
equal-age, alive agents each holding the other as its jubble goal, each
colliding with and winning against the other on the pre-tick state — the
code's fight phase leaves agent 0 alive, while the phase the claim
describes (all kill decisions computed from the unmodified pre-tick state,
then applied) kills agent 0 too.  The outcomes differ, so the claimed
equality of the phase with decide-then-apply is false. -/
theorem fight_phase_differs_from_simultaneous :
    (fightPhase (store2 fightA fightB) [0, 1] 0).is_alive = true ∧
    (fightPhaseSim (store2 fightA fightB) [0, 1] 0).is_alive = false := by
  constructor
  · obtain ⟨h0, -⟩ :=
      fightPhase_mutual_eval fightA fightB rfl rfl rfl coll_fightAB win_fightAB
    rw [h0]
    rfl
  · have e1 : fightStepSim (store2 fightA fightB) (store2 fightA fightB) 0
        = Function.update (store2 fightA fightB) 1 fightB.kill := by
      unfold fightStepSim
      dsimp only
      rw [show (store2 fightA fightB 0).goal_jubble = some 1 from rfl]
      dsimp only
      rw [if_pos (show (store2 fightA fightB 0).has_jubble_goal = true ∧
            (store2 fightA fightB 0).colliding_with_jubble (store2 fightA fightB 1)
            from ⟨rfl, coll_fightAB⟩)]
      rw [if_pos (show (store2 fightA fightB 0).will_win_against_jubble
            (store2 fightA fightB 1) from win_fightAB)]
      rfl
    have e2 : fightStepSim (store2 fightA fightB)
          (Function.update (store2 fightA fightB) 1 fightB.kill) 1
        = Function.update (Function.update (store2 fightA fightB) 1 fightB.kill) 0
            fightA.kill := by
      unfold fightStepSim
      dsimp only
      rw [show (store2 fightA fightB 1).goal_jubble = some 0 from rfl]
      dsimp only
      rw [if_pos (show (store2 fightA fightB 1).has_jubble_goal = true ∧
            (store2 fightA fightB 1).colliding_with_jubble (store2 fightA fightB 0)
            from ⟨rfl, coll_fightBA⟩)]
      rw [if_pos (show (store2 fightA fightB 1).will_win_against_jubble
            (store2 fightA fightB 0) from win_fightBA)]
      rfl
    rw [fightPhaseSim_pair, e1, e2, Function.update_same]
    rfl

/-- C1 (amended): the fight phase applies kills immediately while iterating
in list order, and each iteration's collision check reads the then-current
liveness flags (positions, ages and goals are not changed by this phase, so
liveness is the only state through which iterations interact).  Hence in a
two-agent mutual-kill configuration the agent processed first survives
unchanged and the other dies: an agent killed earlier in the phase cannot
reciprocate.  The phase is NOT equivalent to computing all kill decisions
from the pre-tick state and then applying them. -/
theorem fight_phase_first_processed_wins (A B : Jubble)
    (hAlive : A.is_alive = true)
    (hAg : A.has_jubble_goal = true) (hAr : A.goal_jubble = some 1)
    (_hBg : B.has_jubble_goal = true) (hBr : B.goal_jubble = some 0)
    (hcollAB : A.colliding_with_jubble B) (hwinAB : A.will_win_against_jubble B)
    (_hcollBA : B.colliding_with_jubble A) (_hwinBA : B.will_win_against_jubble A) :
    fightPhase (store2 A B) [0, 1] 0 = A ∧
    (fightPhase (store2 A B) [0, 1] 0).is_alive = true ∧
    fightPhase (store2 A B) [0, 1] 1 = B.kill ∧
    (fightPhase (store2 A B) [0, 1] 1).is_alive = false := by
  obtain ⟨h0, h1⟩ := fightPhase_mutual_eval A B hAg hAr hBr hcollAB hwinAB
  exact ⟨h0, by rw [h0]; exact hAlive, h1, by rw [h1]; exact kill_is_alive B⟩

/-- C1 witness: the concrete mutual-kill configuration. -/
theorem fight_phase_first_processed_wins_witness :
    fightPhase (store2 fightA fightB) [0, 1] 0 = fightA ∧
    (fightPhase (store2 fightA fightB) [0, 1] 0).is_alive = true ∧
    fightPhase (store2 fightA fightB) [0, 1] 1 = fightB.kill ∧
    (fightPhase (store2 fightA fightB) [0, 1] 1).is_alive = false :=
  fight_phase_first_processed_wins fightA fightB rfl rfl rfl rfl rfl
    coll_fightAB win_fightAB coll_fightBA win_fightBA

/- ── C2: the "snapshot" is a shallow copy ──────────────────────────────── -/

/-- C2 counterexample: run `update_jubbles` on a one-agent population (one
alive goal-free agent of age 500).  After the post-snapshot phases
(goal-assignment, prune, per-agent update) the agent referenced by the
PRE-TICK collection has age 501: `copy.copy` copies only the list
container, the clone shares its agent objects with the pre-tick list, so
the update phase mutates the pre-tick snapshot's agent — its fields are not
unchanged. -/
theorem pre_tick_agent_mutated :
    (store1 baseJubble 0).age = 500 ∧
    ((update_jubbles (store1 baseJubble) [0] (fun _ => (false, 0))).1 0).age = 501 := by
  refine ⟨rfl, ?_⟩
  have hred : (update_jubbles (store1 baseJubble) [0] (fun _ => (false, 0))).1 0
      = baseJubble.update none false 0 := rfl
  rw [hred, update_age]
  rfl

/-- C2 (amended): the snapshot phase copies only the list container (a
shallow `copy.copy`); the agent objects are shared between the pre-tick and
next-tick collections, so each post-snapshot phase mutates the very agents
the pre-tick collection references.  In a two-agent mutual-detection
population, after the goal-assignment phase alone, the agent referenced by
the pre-tick collection's first slot holds an agent-goal it did not hold
pre-tick. -/
theorem assign_mutates_pre_tick (A B : Jubble)
    (hA : A.is_alive = true) (hB : B.is_alive = true)
    (hAg : A.has_jubble_goal = false) (hBg : B.has_jubble_goal = false)
    (hdAB : A.can_detect_jubble B) (hdBA : B.can_detect_jubble A)
    (hfAB : A.will_fight_with_jubble B) (hfBA : B.will_fight_with_jubble A) :
    ((assignPhase (store2 A B) [0, 1]) 0).has_jubble_goal = true ∧
    (store2 A B 0).has_jubble_goal = false := by
  obtain ⟨h0, -⟩ := assign_two_mutual A B hA hB hAg hBg hdAB hdBA hfAB hfBA
  exact ⟨by rw [h0]; exact set_jubble_goal_has_jubble_goal A 1, hAg⟩

/-- C2 witness (amended statement): the concrete pair `baseJubble`,
`eastJubble`. -/
theorem assign_mutates_pre_tick_witness :
    ((assignPhase (store2 baseJubble eastJubble) [0, 1]) 0).has_jubble_goal = true ∧
    (store2 baseJubble eastJubble 0).has_jubble_goal = false :=
  assign_mutates_pre_tick baseJubble eastJubble rfl rfl rfl rfl
    detect_base_east detect_east_base le_rfl le_rfl

/- ── C5: equal-age agents within detection range ───────────────────────── -/

/-- C5 counterexample: `baseJubble` and `eastJubble` are both alive, of
equal age 500, goal-free, and each detects the other; after the
goal-assignment phase EACH holds the other as its agent-goal
(`will_fight_with_jubble` is the non-strict `age >= other.age`, which an
equal-age pair satisfies in both directions) — not "no agent-goal on
either" as claimed. -/
theorem equal_age_mutual_targeting :
    baseJubble.age = eastJubble.age ∧
    baseJubble.can_detect_jubble eastJubble ∧
    eastJubble.can_detect_jubble baseJubble ∧
    ((assignPhase (store2 baseJubble eastJubble) [0, 1]) 0).goal_jubble = some 1 ∧
    ((assignPhase (store2 baseJubble eastJubble) [0, 1]) 1).goal_jubble = some 0 := by
  obtain ⟨h0, h1⟩ := assign_two_mutual baseJubble eastJubble rfl rfl rfl rfl
    detect_base_east detect_east_base le_rfl le_rfl
  refine ⟨rfl, detect_base_east, detect_east_base, ?_, ?_⟩
  · rw [h0]
    exact set_jubble_goal_goal_jubble baseJubble 1
  · rw [h1]
    exact set_jubble_goal_goal_jubble eastJubble 0

/-- C5 (amended): for two alive, goal-free agents of EQUAL age that detect
each other, the goal-assignment phase sets an agent-goal on BOTH, each
targeting the other: `will_fight_with_jubble` uses the non-strict
comparison `age >= other.age`, so equal ages qualify in both directions. -/
theorem equal_age_mutual_goal_assignment (A B : Jubble)
    (hA : A.is_alive = true) (hB : B.is_alive = true)
    (hAg : A.has_jubble_goal = false) (hBg : B.has_jubble_goal = false)
    (hage : A.age = B.age)
    (hdAB : A.can_detect_jubble B) (hdBA : B.can_detect_jubble A) :
    ((assignPhase (store2 A B) [0, 1]) 0).has_jubble_goal = true ∧
    ((assignPhase (store2 A B) [0, 1]) 0).goal_jubble = some 1 ∧
    ((assignPhase (store2 A B) [0, 1]) 1).has_jubble_goal = true ∧
    ((assignPhase (store2 A B) [0, 1]) 1).goal_jubble = some 0 := by
  obtain ⟨h0, h1⟩ := assign_two_mutual A B hA hB hAg hBg hdAB hdBA
    (le_of_eq hage.symm) (le_of_eq hage)
  exact ⟨by rw [h0]; exact set_jubble_goal_has_jubble_goal A 1,
         by rw [h0]; exact set_jubble_goal_goal_jubble A 1,
         by rw [h1]; exact set_jubble_goal_has_jubble_goal B 0,
         by rw [h1]; exact set_jubble_goal_goal_jubble B 0⟩

/-- C5 witness (amended statement): the concrete equal-age pair. -/
theorem equal_age_mutual_goal_assignment_witness :
    ((assignPhase (store2 baseJubble eastJubble) [0, 1]) 0).has_jubble_goal = true ∧
    ((assignPhase (store2 baseJubble eastJubble) [0, 1]) 0).goal_jubble = some 1 ∧
    ((assignPhase (store2 baseJubble eastJubble) [0, 1]) 1).has_jubble_goal = true ∧
    ((assignPhase (store2 baseJubble eastJubble) [0, 1]) 1).goal_jubble = some 0 :=
  equal_age_mutual_goal_assignment baseJubble eastJubble rfl rfl rfl rfl rfl
    detect_base_east detect_east_base

/- ── C10: will_be_drawn is total on reachable states ───────────────────── -/

/-- The liveness/age-of-death discipline: a dead jubble carries a recorded
age-of-death.  Every reachable agent state satisfies it. -/
def deadHasAgeOfDeath (j : Jubble) : Prop :=
  j.is_alive = false → j.age_of_death.isSome = true

/-- A heap all of whose objects satisfy the discipline. -/
def storeWF (s : Store) : Prop := ∀ i, deadHasAgeOfDeath (s i)

lemma WF_of_alive (j : Jubble) (h : j.is_alive = true) : deadHasAgeOfDeath j :=
  fun hd => absurd h (by rw [hd]; exact Bool.false_ne_true)

lemma kill_WF (j : Jubble) : deadHasAgeOfDeath j.kill := fun _ => rfl

lemma set_coord_goal_WF (j : Jubble) (gx gy : ℝ) (h : deadHasAgeOfDeath j) :
    deadHasAgeOfDeath (j.set_coord_goal gx gy) := by
  intro hdead
  rw [set_coord_goal_age_of_death]
  rw [set_coord_goal_is_alive] at hdead
  exact h hdead

lemma set_jubble_goal_WF (j : Jubble) (r : ℕ) (h : deadHasAgeOfDeath j) :
    deadHasAgeOfDeath (j.set_jubble_goal r) := by
  intro hdead
  rw [set_jubble_goal_age_of_death]
  exact h hdead

lemma get_older_WF (j : Jubble) (h : deadHasAgeOfDeath j) :
    deadHasAgeOfDeath j._get_older := by
  unfold Jubble._get_older
  dsimp only
  split_ifs with hc
  · intro _
    rfl
  · intro hdead
    exact h hdead

lemma update_WF (j : Jubble) (t : Option Jubble) (dt : Bool) (sh : ℝ)
    (h : deadHasAgeOfDeath j) : deadHasAgeOfDeath (j.update t dt sh) := by
  unfold Jubble.update
  dsimp only
  apply get_older_WF
  split_ifs with h1 h2 h3 <;>
    intro hdead <;>
    (try simp only [move_one_unit_is_alive, handle_coord_goal_is_alive,
      handle_jubble_goal_is_alive, Jubble._add_random_angle_shift,
      move_one_unit_age_of_death, handle_coord_goal_age_of_death,
      handle_jubble_goal_age_of_death] at hdead ⊢) <;>
    exact h hdead

lemma update_store_WF {s : Store} (h : storeWF s) (r : ℕ) (v : Jubble)
    (hv : deadHasAgeOfDeath v) : storeWF (Function.update s r v) := by
  intro i
  rcases eq_or_ne i r with rfl | hne
  · rw [Function.update_same]
    exact hv
  · rw [Function.update_noteq hne]
    exact h i

lemma fightStep_WF {s : Store} (h : storeWF s) (r : ℕ) : storeWF (fightStep s r) := by
  unfold fightStep
  dsimp only
  split
  · split_ifs
    · exact update_store_WF h _ _ (kill_WF _)
    · exact h
    · exact h
  · exact h

lemma assignStep_WF {s : Store} (h : storeWF s) (jr ojr : ℕ) :
    storeWF (assignStep s jr ojr) := by
  unfold assignStep
  split_ifs
  · exact update_store_WF h _ _ (set_jubble_goal_WF _ _ (h jr))
  · exact h
  · exact h

lemma updateStep_WF {s : Store} (h : storeWF s) (r : ℕ) (orc : Bool × ℝ) :
    storeWF (updateStep s r orc) := by
  unfold updateStep
  dsimp only
  exact update_store_WF h _ _ (update_WF _ _ _ _ (h r))

lemma foldl_WF {α : Type} (f : Store → α → Store)
    (hf : ∀ s a, storeWF s → storeWF (f s a)) :
    ∀ (l : List α) (s : Store), storeWF s → storeWF (l.foldl f s) := by
  intro l
  induction l with
  | nil => exact fun s hs => hs
  | cons a l ih => exact fun s hs => ih (f s a) (hf s a hs)

lemma fightPhase_WF (s : Store) (refs : List ℕ) (h : storeWF s) :
    storeWF (fightPhase s refs) :=
  foldl_WF fightStep (fun _ r hs => fightStep_WF hs r) refs s h

lemma assignPhase_WF (s : Store) (refs : List ℕ) (h : storeWF s) :
    storeWF (assignPhase s refs) := by
  unfold assignPhase
  apply foldl_WF _ _ _ _ h
  intro s1 j hs1
  apply foldl_WF _ _ _ _ hs1
  intro s2 oj hs2
  split_ifs
  · exact assignStep_WF hs2 _ _
  · exact hs2

lemma updatePhase_WF (s : Store) (refs : List ℕ) (orcs : ℕ → Bool × ℝ)
    (h : storeWF s) : storeWF (updatePhase s refs orcs) :=
  foldl_WF _ (fun _ p hs => updateStep_WF hs p.2 (orcs p.1)) refs.enum s h

lemma update_jubbles_WF (s : Store) (refs : List ℕ) (orcs : ℕ → Bool × ℝ)
    (h : storeWF s) : storeWF ((update_jubbles s refs orcs).1) := by
  unfold update_jubbles
  dsimp only
  exact updatePhase_WF _ _ orcs (assignPhase_WF _ _ (fightPhase_WF _ _ h))

/-- C10: `will_be_drawn` never reaches its error branch on reachable
states: the alive disjunct short-circuits, so the `age - age_of_death`
subtraction is reached only when dead; the discipline "dead implies
age-of-death recorded" holds at construction, is established by `kill()`
itself, and is preserved by every operation — goal setters, the per-tick
`update()` (whose only path to death is `kill`), and the whole
`stepPopulation`/`update_jubbles` heap transformation; on any state
satisfying it, `will_be_drawn` returns a value (`isSome`). -/
theorem will_be_drawn_total_on_reachable :
    (∀ (i : ℕ) (x0 y0 : ℝ), deadHasAgeOfDeath (Jubble.init i x0 y0)) ∧
    (∀ j : Jubble, deadHasAgeOfDeath j.kill) ∧
    (∀ (j : Jubble) (gx gy : ℝ), deadHasAgeOfDeath j →
        deadHasAgeOfDeath (j.set_coord_goal gx gy)) ∧
    (∀ (j : Jubble) (r : ℕ), deadHasAgeOfDeath j →
        deadHasAgeOfDeath (j.set_jubble_goal r)) ∧
    (∀ (j : Jubble) (t : Option Jubble) (dt : Bool) (sh : ℝ),
        deadHasAgeOfDeath j → deadHasAgeOfDeath (j.update t dt sh)) ∧
    (∀ (s : Store) (refs : List ℕ) (orcs : ℕ → Bool × ℝ),
        storeWF s → storeWF ((update_jubbles s refs orcs).1)) ∧
    (∀ j : Jubble, deadHasAgeOfDeath j → (j.will_be_drawn).isSome = true) := by
  refine ⟨fun i x0 y0 => WF_of_alive _ rfl, kill_WF, set_coord_goal_WF,
    set_jubble_goal_WF, update_WF, update_jubbles_WF, ?_⟩
  intro j hj
  unfold Jubble.will_be_drawn
  by_cases ha : j.is_alive = true
  · rw [if_pos ha]
    rfl
  · rw [if_neg ha]
    have hfalse : j.is_alive = false := by
      rcases Bool.eq_false_or_eq_true j.is_alive with htt | hf
      · exact absurd htt ha
      · exact hf
    have hsome := hj hfalse
    rcases ho : j.age_of_death with _ | d
    · rw [ho] at hsome
      simp at hsome
    · rfl

/-- C10 witness: the discipline holds of a fresh agent, a killed agent, an
updated agent, and the heap of a full population step, and `will_be_drawn`
is defined on the base agent. -/
theorem will_be_drawn_total_on_reachable_witness :
    deadHasAgeOfDeath (Jubble.init 0 100 100) ∧
    deadHasAgeOfDeath baseJubble.kill ∧
    deadHasAgeOfDeath (baseJubble.set_coord_goal 200 200) ∧
    deadHasAgeOfDeath (baseJubble.set_jubble_goal 1) ∧
    deadHasAgeOfDeath (baseJubble.update none false 0) ∧
    storeWF ((update_jubbles (store1 baseJubble) [0] (fun _ => (false, 0))).1) ∧
    (baseJubble.will_be_drawn).isSome = true :=
  ⟨will_be_drawn_total_on_reachable.1 0 100 100,
   will_be_drawn_total_on_reachable.2.1 baseJubble,
   will_be_drawn_total_on_reachable.2.2.1 baseJubble 200 200 (WF_of_alive _ rfl),
   will_be_drawn_total_on_reachable.2.2.2.1 baseJubble 1 (WF_of_alive _ rfl),
   will_be_drawn_total_on_reachable.2.2.2.2.1 baseJubble none false 0 (WF_of_alive _ rfl),
   will_be_drawn_total_on_reachable.2.2.2.2.2.1 (store1 baseJubble) [0]
     (fun _ => (false, 0)) (fun _ => WF_of_alive _ rfl),
   will_be_drawn_total_on_reachable.2.2.2.2.2.2 baseJubble (WF_of_alive _ rfl)⟩

end Jubblution
